import Mathlib

/-
Shallow embedding of the authentication / session-token subsystem of the
certify-backend repository (Go).  The embedded code lives in:
  src/service/jwt.go        (jwtService: sign / verify / refresh-secret generation)
  src/service/document.go   (authService: Login, Refresh, Logout, ParseToken)
  src/repository/pg/user.go (tokenRepository over Redis, userRepository over SQL)
  src/errs/errs.go          (error taxonomy)
Times are modelled as Int (Unix seconds); the wall clock is an explicit
argument.  External libraries (crypto/sha256, bcrypt, JWT signing, Redis,
the SQL user directory, encoding/json) are modelled symbolically but
executably, as documented on each definition.
-/

deriving instance DecidableEq for Except

namespace Certify

/-- Error taxonomy of errs.ErrorType (src/errs/errs.go): VALIDATION_ERROR,
INTERNAL_ERROR, BAD_REQUEST, NOT_FOUND, UNAUTHORIZED, ALREADY_EXISTS. -/
inductive ErrorType where
  | validation
  | internal
  | badRequest
  | notFound
  | unauthorized
  | alreadyExists
  deriving DecidableEq, Repr

/-- Model of errs.Error: a classification, a message, and an optional wrapped
cause (the Err field, rendered as a string; it carries the json tag "-" and is
not serialized to clients). -/
structure GoError where
  type : ErrorType
  message : String
  cause : Option String
  deriving DecidableEq, Repr

/-- errs.InternalError (src/errs/errs.go line 81). -/
def internalError (message : String) (cause : Option String) : GoError :=
  ⟨ErrorType.internal, message, cause⟩

/-- errs.UnauthorizedError (src/errs/errs.go line 93). -/
def unauthorizedError (message : String) (cause : Option String) : GoError :=
  ⟨ErrorType.unauthorized, message, cause⟩

/-- errs.NotFoundError (src/errs/errs.go line 89): message is "(item) not found". -/
def notFoundError (item : String) (cause : Option String) : GoError :=
  ⟨ErrorType.notFound, item ++ " not found", cause⟩

/-- entity.TokenPayload (src/entity/entity.go): the session payload embedded in
tokens — subject id, role and tenant (company) id, all strings. -/
structure TokenPayload where
  userID : String
  role : String
  companyID : String
  deriving DecidableEq, Repr

/-- entity.RefreshToken (src/entity/entity.go): what jwtService.GenerateRefreshToken
returns — owner user id, the Token field (see the source: it holds the SHA-256
digest of the random secret) and the configured refresh TTL. -/
structure RefreshToken where
  userID : String
  token : String
  expiresIn : Int
  deriving DecidableEq, Repr

/-- Symbolic, executable model of service.SHA256Hex (src/service/jwt.go line 17),
which hex-encodes crypto/sha256 of the input.  The external hash is idealized as
an injective tag; the development uses only that it is deterministic, injective
on the inputs that occur, and never equal to its preimage (a real digest is 64
hex characters, the tagged string always differs from s). -/
def SHA256Hex (s : String) : String :=
  "sha256hex:" ++ s

/-- Symbolic, executable model of bcrypt.GenerateFromPassword: an idealized
deterministic password hash (real bcrypt salts; only the success or failure of
the comparison below is ever used by the embedded code). -/
def bcryptHashOf (password : String) : String :=
  "bcrypt:" ++ password

/-- Model of bcrypt.CompareHashAndPassword: true exactly when the stored hash is
the hash of the presented password. -/
def bcryptMatches (hash password : String) : Bool :=
  hash = bcryptHashOf password

/-- Canonical serialization of a TokenPayload by encoding/json.Marshal with the
struct tags user_id, role, company_id (src/entity/entity.go). -/
def jsonMarshalTokenPayload (p : TokenPayload) : String :=
  "\x7b\"user_id\":\"" ++ p.userID ++ "\",\"role\":\"" ++ p.role ++
    "\",\"company_id\":\"" ++ p.companyID ++ "\"\x7d"

/-- Helper for the JSON model: removes the given leading characters, or fails
when the list does not start with them. -/
def stripPre : List Char → List Char → Option (List Char)
  | [], l => some l
  | _ :: _, [] => none
  | p :: ps, c :: cs => if p = c then stripPre ps cs else none

/-- Helper for the JSON model: splits at the first occurrence of the separator,
returning the parts before and after it, or fails when the separator is
absent. -/
def splitOnce (sep : List Char) : List Char → Option (List Char × List Char)
  | [] => none
  | c :: cs =>
    match stripPre sep (c :: cs) with
    | some rest => some ([], rest)
    | none =>
      match splitOnce sep cs with
      | some (a, b) => some (c :: a, b)
      | none => none

/-- Model of encoding/json.Unmarshal into entity.TokenPayload, restricted to the
canonical serialization above: it inverts jsonMarshalTokenPayload and rejects
everything else.  The load-bearing faithful fact is that Go json.Unmarshal of a
non-object — in particular of the bare decimal integer string that
tokenRepository.SetRefreshToken writes as the stored value — fails with an
error, which this model reflects by returning none on any string that is not a
canonical payload object. -/
def jsonUnmarshalTokenPayload (s : String) : Option TokenPayload :=
  match stripPre ("\x7b\"user_id\":\"").data s.data with
  | none => none
  | some l1 =>
    match stripPre ("\"\x7d").data.reverse l1.reverse with
    | none => none
    | some r1 =>
      match splitOnce ("\",\"role\":\"").data r1.reverse with
      | none => none
      | some (uid, rest) =>
        match splitOnce ("\",\"company_id\":\"").data rest with
        | none => none
        | some (role, cid) => some ⟨⟨uid⟩, ⟨role⟩, ⟨cid⟩⟩

/-- The Go zero time.Time rendered as Unix seconds (January 1, year 1, UTC);
jwtService.ParseAccessToken returns it when the verified token carries no
expires-at claim (src/service/jwt.go lines 95-98). -/
def goZeroTime : Int := -62135596800

/-- The claim set of service.AccessToken (src/service/jwt.go lines 30-33):
the session payload plus the registered claims written by GenerateAccessToken
(issued-at, expires-at).  expires-at is optional in the wire format, which is
what the exp-less branch of ParseAccessToken handles. -/
structure AccessTokenClaims where
  payload : TokenPayload
  iat : Int
  exp : Option Int
  deriving DecidableEq, Repr

/-- Model of a Go string presented where an access token is expected: it is
either the JWS compact serialization of some claim set signed (HMAC-SHA256)
with some key, or a string that is not a well-formed token at all.  JWS
serialization is injective, so a well-formed token is characterized by its
claims and signing key. -/
inductive TokenStr where
  | wellFormed (claims : AccessTokenClaims) (key : String)
  | malformed (raw : String)
  deriving DecidableEq, Repr

/-- The raw Go string of a presented token, needed because authService.Logout
and authService.ParseToken apply SHA256Hex to the token string itself.  The
exact byte format is irrelevant to every claim (only that equal tokens hash to
equal denylist keys), so a simple readable rendering is used. -/
def serializeTokenStr : TokenStr → String
  | TokenStr.wellFormed c k =>
      "jwt:" ++ c.payload.userID ++ ":" ++ c.payload.role ++ ":" ++
        c.payload.companyID ++ ":" ++ toString c.iat ++ ":" ++
        (match c.exp with
          | some e => toString e
          | none => "noexp") ++ ":" ++ k
  | TokenStr.malformed raw => raw

/-- jwtService configuration (src/service/jwt.go lines 41-53): signing secret
and the two TTLs, in seconds. -/
structure JwtConfig where
  secret : String
  accessTTL : Int
  refreshTTL : Int
  deriving DecidableEq, Repr

/-- jwtService.GenerateAccessToken (src/service/jwt.go lines 55-66): signs the
payload with expires-at = now + accessTTL and issued-at = now under the
configured secret.  HMAC signing of an in-memory key cannot fail, so the
error return of the Go function is not reachable and the model is total. -/
def generateAccessToken (cfg : JwtConfig) (now : Int) (payload : TokenPayload) : TokenStr :=
  TokenStr.wellFormed ⟨payload, now, some (now + cfg.accessTTL)⟩ cfg.secret

/-- jwtService.GenerateRefreshToken (src/service/jwt.go lines 68-81).  The
randomness source is an explicit argument: some s models a successful
64-byte read rendered by secureRandomBase64, none models an entropy failure.
Note from the source: the returned Token field is SHA256Hex of the random
secret — the raw secret str is a local that is never returned or stored. -/
def generateRefreshToken (cfg : JwtConfig) (payload : TokenPayload)
    (rand : Option String) : Except GoError RefreshToken :=
  match rand with
  | none =>
      Except.error (internalError "error generating refresh token"
        (some "error creating secure random base 64"))
  | some s => Except.ok ⟨payload.userID, SHA256Hex s, cfg.refreshTTL⟩

/-- jwtService.ParseAccessToken (src/service/jwt.go lines 83-100).  It calls
jwt.ParseWithClaims (golang-jwt v5), which fails when the string is malformed,
the HMAC signature does not match the configured secret, or an expires-at claim
is present with now not before it (v5 validates exp only when present; iat and
nbf validation are off by default).  THE SOURCE WRAPS EVERY SUCH LIBRARY ERROR
AS errs.InternalError("error parsing access token", err); the subsequent
!parsedToken.Valid branch returning UnauthorizedError is unreachable, because
the v5 library returns Valid = true exactly when it returns a nil error.  On
success, the returned instant is the expires-at claim, or the Go zero time when
the claim is absent. -/
def parseAccessToken (cfg : JwtConfig) (now : Int) (t : TokenStr) :
    Except GoError (TokenPayload × Int) :=
  match t with
  | TokenStr.malformed _ =>
      Except.error (internalError "error parsing access token"
        (some "token is malformed"))
  | TokenStr.wellFormed c k =>
      if k = cfg.secret then
        match c.exp with
        | some e =>
            if now < e then Except.ok (c.payload, e)
            else
              Except.error (internalError "error parsing access token"
                (some "token has invalid claims: token is expired"))
        | none => Except.ok (c.payload, goZeroTime)
      else
        Except.error (internalError "error parsing access token"
          (some "token signature is invalid"))

/-- Model of the Redis session store (src/db/redis.go client as used by
tokenRepository): an association list key → (value, ttl) plus a connection
failure flag (down = every primitive returns an error, modelling an unavailable
store).  TTLs are recorded as written; automatic key expiry over time is not
simulated — the claims about TTLs quantify over the written TTL value. -/
structure RedisState where
  kv : List (String × String × Int)
  down : Bool
  deriving DecidableEq, Repr

/-- Redis GET of the value and ttl stored at a key. -/
def redisLookup (st : RedisState) (key : String) : Option (String × Int) :=
  (st.kv.find? (fun e => e.1 = key)).map (fun e => e.2)

/-- Redis SET key value EX ttl: replaces any previous entry at the key. -/
def redisSet (st : RedisState) (key value : String) (ttl : Int) : RedisState :=
  ⟨(key, value, ttl) :: st.kv.filter (fun e => e.1 ≠ key), st.down⟩

/-- Redis DEL key (deleting an absent key is not an error). -/
def redisDel (st : RedisState) (key : String) : RedisState :=
  ⟨st.kv.filter (fun e => e.1 ≠ key), st.down⟩

/-- tokenRepository.SetRefreshToken (src/repository/pg/user.go lines 175-183):
SET at key "refresh:" ++ token.Token, with the stored VALUE being token.UserID
(the bare user-id string, exactly as in the source: rdb.Set(ctx,
refreshPfx+token.Token, token.UserID, token.ExpiresIn)). -/
def setRefreshToken (st : RedisState) (t : RefreshToken) :
    Except GoError Unit × RedisState :=
  if st.down then
    (Except.error (internalError "error setting refresh token to database"
      (some "redis: connection refused")), st)
  else
    (Except.ok (), redisSet st ("refresh:" ++ t.token) t.userID t.expiresIn)

/-- tokenRepository.DeleteRefreshToken (src/repository/pg/user.go lines 185-191). -/
def deleteRefreshToken (st : RedisState) (tokenHash : String) :
    Except GoError Unit × RedisState :=
  if st.down then
    (Except.error (internalError "error deleting refresh token from database"
      (some "redis: connection refused")), st)
  else
    (Except.ok (), redisDel st ("refresh:" ++ tokenHash))

/-- tokenRepository.BlacklistAccessToken (src/repository/pg/user.go lines
193-199): SET at key "blacklist:" ++ tokenHash of the sentinel value "token",
with TTL the remaining duration passed by the caller. -/
def blacklistAccessToken (st : RedisState) (tokenHash : String) (remaining : Int) :
    Except GoError Unit × RedisState :=
  if st.down then
    (Except.error (internalError "error blacklisting access token"
      (some "redis: connection refused")), st)
  else
    (Except.ok (), redisSet st ("blacklist:" ++ tokenHash) "token" remaining)

/-- tokenRepository.IsAccessTokenBlacklisted (src/repository/pg/user.go lines
201-208): EXISTS on "blacklist:" ++ tokenHash; a store failure is classified
Internal at this level. -/
def isAccessTokenBlacklisted (st : RedisState) (tokenHash : String) :
    Except GoError Bool :=
  if st.down then
    Except.error (internalError "error validating token"
      (some "redis: connection refused"))
  else
    Except.ok (redisLookup st ("blacklist:" ++ tokenHash)).isSome

/-- tokenRepository.FetchUserFromRefreshToken (src/repository/pg/user.go lines
210-227): GET at "refresh:" ++ tokenHash; redis.Nil (absent key) becomes
NotFoundError("refresh token"); any other store error is Internal; the fetched
value is json.Unmarshal-ed into a TokenPayload, an unmarshal failure being
Internal("error unmarshaling token payload"). -/
def fetchUserFromRefreshToken (st : RedisState) (tokenHash : String) :
    Except GoError TokenPayload :=
  if st.down then
    Except.error (internalError "error fetching user id from db"
      (some "redis: connection refused"))
  else
    match redisLookup st ("refresh:" ++ tokenHash) with
    | none => Except.error (notFoundError "refresh token" (some "redis: nil"))
    | some (v, _) =>
        match jsonUnmarshalTokenPayload v with
        | none =>
            Except.error (internalError "error unmarshaling token payload"
              (some "json: cannot unmarshal value into TokenPayload"))
        | some p => Except.ok p

/-- entity.User restricted to the fields the auth flow reads (src/entity/entity.go):
id, role, email, stored bcrypt password hash, company id. -/
structure User where
  id : Nat
  role : String
  email : String
  password : String
  companyID : Nat
  deriving DecidableEq, Repr

/-- The user directory: the rows of the users table, plus a failure flag
modelling an unavailable SQL backend (any query errors when down). -/
structure UserDirectory where
  users : List User
  down : Bool
  deriving DecidableEq, Repr

/-- userService.GetUserByEmail (src/service/jwt.go second part, lines 306-316,
over userRepository.GetUserByEmail): sql.ErrNoRows becomes
NotFoundError("user"); any other database error is Internal. -/
def getUserByEmail (dir : UserDirectory) (email : String) : Except GoError User :=
  if dir.down then
    Except.error (internalError "error getting user by email"
      (some "pq: connection refused"))
  else
    match dir.users.find? (fun u => u.email = email) with
    | none => Except.error (notFoundError "user" (some "sql: no rows in result set"))
    | some u => Except.ok u

/-- entity.TokenPair as handed to the HTTP layer: the signed access token and
the refresh-token string (the Token field of the generated RefreshToken). -/
structure TokenPair where
  accessToken : TokenStr
  refreshToken : String
  deriving DecidableEq, Repr

/-- authService.Login (src/service/document.go lines 159-199).  Every error
from GetUserByEmail — not-found AND internal alike — is wrapped as
Unauthorized("invalid credentials"); a bcrypt mismatch yields the same
Unauthorized("invalid credentials"); then the access token is signed, the
refresh token generated, and its digest persisted as the last step (a
persistence failure fails the whole login with Internal and no pair).  The
pair returned to the client carries refreshToken.Token. -/
def authLogin (cfg : JwtConfig) (dir : UserDirectory) (now : Int)
    (rand : Option String) (st : RedisState) (email password : String) :
    Except GoError TokenPair × RedisState :=
  match getUserByEmail dir email with
  | Except.error e =>
      (Except.error (unauthorizedError "invalid credentials" (some e.message)), st)
  | Except.ok user =>
      if bcryptMatches user.password password then
        let payload : TokenPayload :=
          ⟨toString user.id, user.role, toString user.companyID⟩
        let access := generateAccessToken cfg now payload
        match generateRefreshToken cfg payload rand with
        | Except.error e =>
            (Except.error (internalError "error generating refresh token"
              (some e.message)), st)
        | Except.ok rt =>
            match setRefreshToken st rt with
            | (Except.error e, st1) =>
                (Except.error (internalError "error setting refresh token"
                  (some e.message)), st1)
            | (Except.ok _, st1) =>
                (Except.ok ⟨access, rt.token⟩, st1)
      else
        (Except.error (unauthorizedError "invalid credentials"
          (some "crypto/bcrypt: hashedPassword is not the hash of the given password")),
          st)

/-- authService.Refresh (src/service/document.go lines 205-240): fetch the
stored payload for the presented token string (the fetch error is PROPAGATED
UNCHANGED, so an absent entry surfaces as NotFound), then delete the old entry,
then sign a new access token, generate a new refresh token and persist its
digest. -/
def authRefresh (cfg : JwtConfig) (now : Int) (rand : Option String)
    (st : RedisState) (refreshToken : String) :
    Except GoError TokenPair × RedisState :=
  match fetchUserFromRefreshToken st refreshToken with
  | Except.error e => (Except.error e, st)
  | Except.ok payload =>
      match deleteRefreshToken st refreshToken with
      | (Except.error e, st1) =>
          (Except.error (internalError "error deleting refresh token"
            (some e.message)), st1)
      | (Except.ok _, st1) =>
          let access := generateAccessToken cfg now payload
          match generateRefreshToken cfg payload rand with
          | Except.error e =>
              (Except.error (internalError "error generating refresh token"
                (some e.message)), st1)
          | Except.ok rt =>
              match setRefreshToken st1 rt with
              | (Except.error e, st2) =>
                  (Except.error (internalError "error setting refresh token"
                    (some e.message)), st2)
              | (Except.ok _, st2) =>
                  (Except.ok ⟨access, rt.token⟩, st2)

/-- authService.Logout (src/service/document.go lines 242-265): delete the
refresh entry (an error is returned unchanged); then parse the access token —
A PARSE ERROR IS RETURNED AS THE RESULT OF THE WHOLE LOGOUT (the source does
return err at line 252, it does not skip); on parse success, if the remaining
lifetime expiry - now is positive, the token-string digest is denylisted with
exactly that remaining duration as TTL, otherwise no denylist entry is
written. -/
def authLogout (cfg : JwtConfig) (now : Int) (st : RedisState)
    (accessToken : TokenStr) (refreshToken : String) :
    Except GoError Unit × RedisState :=
  match deleteRefreshToken st refreshToken with
  | (Except.error e, st1) => (Except.error e, st1)
  | (Except.ok _, st1) =>
      match parseAccessToken cfg now accessToken with
      | Except.error e => (Except.error e, st1)
      | Except.ok (_, expTime) =>
          let remaining := expTime - now
          if remaining > 0 then
            match blacklistAccessToken st1 (SHA256Hex (serializeTokenStr accessToken))
                remaining with
            | (Except.error e, st2) => (Except.error e, st2)
            | (Except.ok _, st2) => (Except.ok (), st2)
          else
            (Except.ok (), st1)

/-- authService.ParseToken (src/service/document.go lines 267-285), the
request-authentication step: digest the presented token string, check the
denylist FIRST — a store failure during that check is wrapped as
Unauthorized("invalid token"), a denylisted token as Unauthorized("token has
been revoked") — then verify the token, any verification failure being wrapped
as Unauthorized("invalid token"); on success the embedded payload is
returned. -/
def authParseToken (cfg : JwtConfig) (now : Int) (st : RedisState)
    (t : TokenStr) : Except GoError TokenPayload :=
  match isAccessTokenBlacklisted st (SHA256Hex (serializeTokenStr t)) with
  | Except.error e =>
      Except.error (unauthorizedError "invalid token" (some e.message))
  | Except.ok true =>
      Except.error (unauthorizedError "token has been revoked" none)
  | Except.ok false =>
      match parseAccessToken cfg now t with
      | Except.error e =>
          Except.error (unauthorizedError "invalid token" (some e.message))
      | Except.ok (payload, _) => Except.ok payload

/-- Concrete jwtService configuration for scenario theorems: 15-minute access
TTL, 7-day refresh TTL. -/
def cfg0 : JwtConfig := ⟨"topsecret", 900, 604800⟩

/-- Concrete user row: id 1, admin of company 7, with the stored bcrypt hash of
the password pw123. -/
def user1 : User := ⟨1, "admin", "a@x.com", bcryptHashOf "pw123", 7⟩

/-- Concrete user directory holding just user1, backend available. -/
def dir0 : UserDirectory := ⟨[user1], false⟩

/-- Empty, available session store. -/
def st0 : RedisState := ⟨[], false⟩

/-- The session payload Login builds from user1. -/
def payload1 : TokenPayload := ⟨"1", "admin", "7"⟩

/-- A session store holding, at refresh key h0, a value that IS decodable (the
canonical JSON of payload1) — the storage format the spec assumes; used to
exercise the refresh-rotation scenario past the fetch step. -/
def stGood : RedisState := ⟨[("refresh:h0", jsonMarshalTokenPayload payload1, 604800)], false⟩

/-- Claim C1 (code bug): a successful Login persists user1's refresh token, yet
the subsequent Refresh presenting exactly that token does NOT succeed — the
value SetRefreshToken wrote (the bare user-id string "1") is not decodable by
FetchUserFromRefreshToken, so Refresh returns Internal "error unmarshaling
token payload" instead of reissuing a pair.  The first two conjuncts pin down
the successful login and the exact store contents it leaves; the third
evaluates Refresh at the persisted token. -/
theorem c1_refresh_of_login_token_fails :
    (authLogin cfg0 dir0 1000 (some "r1") st0 "a@x.com" "pw123").1 =
      Except.ok ⟨generateAccessToken cfg0 1000 payload1, SHA256Hex "r1"⟩ ∧
    (authLogin cfg0 dir0 1000 (some "r1") st0 "a@x.com" "pw123").2 =
      ⟨[("refresh:" ++ SHA256Hex "r1", "1", 604800)], false⟩ ∧
    (authRefresh cfg0 1001 (some "r2")
        (authLogin cfg0 dir0 1000 (some "r1") st0 "a@x.com" "pw123").2
        (SHA256Hex "r1")).1 =
      Except.error (internalError "error unmarshaling token payload"
        (some "json: cannot unmarshal value into TokenPayload")) := by
  refine ⟨rfl, rfl, rfl⟩

/-- Claim C2, counterexample: at the concrete random secret r1, the value
GenerateRefreshToken returns carries SHA256Hex r1 — not the raw secret, which
is discarded — in its Token field; that digest, unequal to the secret, is
exactly the string Login hands to the client AND the suffix of the key the
store entry lives under, refuting both "the raw secret is returned to the
caller" and "the string held by the client is distinct from the storage
key". -/
theorem c2_counterexample :
    generateRefreshToken cfg0 payload1 (some "r1") =
      Except.ok ⟨"1", SHA256Hex "r1", 604800⟩ ∧
    SHA256Hex "r1" ≠ "r1" ∧
    (authLogin cfg0 dir0 1000 (some "r1") st0 "a@x.com" "pw123").1 =
      Except.ok ⟨generateAccessToken cfg0 1000 payload1, SHA256Hex "r1"⟩ ∧
    redisLookup (authLogin cfg0 dir0 1000 (some "r1") st0 "a@x.com" "pw123").2
      ("refresh:" ++ SHA256Hex "r1") = some ("1", 604800) := by
  refine ⟨rfl, by decide, rfl, rfl⟩

/-- Claim C2 as amended: GenerateRefreshToken discards the raw random secret
and returns only its SHA-256 digest as the token, and SetRefreshToken uses that
same digest (under the refresh: namespace) as the storage key, storing the
user id as the value — so the client-held string coincides with the storage-key
suffix and the raw secret is neither returned nor stored. -/
theorem c2_digest_returned_and_used_as_key (cfg : JwtConfig) (p : TokenPayload)
    (r : String) (st : RedisState) (hd : st.down = false) :
    generateRefreshToken cfg p (some r) =
      Except.ok ⟨p.userID, SHA256Hex r, cfg.refreshTTL⟩ ∧
    setRefreshToken st ⟨p.userID, SHA256Hex r, cfg.refreshTTL⟩ =
      (Except.ok (), redisSet st ("refresh:" ++ SHA256Hex r) p.userID cfg.refreshTTL) := by
  constructor
  · rfl
  · unfold setRefreshToken
    simp [hd]

/-- Witness for c2_digest_returned_and_used_as_key at cfg0, payload1, r1,
st0. -/
theorem c2_witness :
    st0.down = false ∧
    (generateRefreshToken cfg0 payload1 (some "r1") =
        Except.ok ⟨payload1.userID, SHA256Hex "r1", cfg0.refreshTTL⟩ ∧
      setRefreshToken st0 ⟨payload1.userID, SHA256Hex "r1", cfg0.refreshTTL⟩ =
        (Except.ok (),
          redisSet st0 ("refresh:" ++ SHA256Hex "r1") payload1.userID cfg0.refreshTTL)) :=
  ⟨rfl, c2_digest_returned_and_used_as_key cfg0 payload1 "r1" st0 rfl⟩

/-- Claim C3, counterexample: Logout presented with a malformed access token
(and, second conjunct, with an expired one) returns the Internal parse error
rather than success — the denylisting step is skipped, but the
token-verification failure IS propagated as the error of the whole logout,
refuting "still returns success". -/
theorem c3_counterexample :
    authLogout cfg0 1000 st0 (TokenStr.malformed "not-a-jwt") "rt" =
      (Except.error (internalError "error parsing access token" (some "token is malformed")),
        st0) ∧
    authLogout cfg0 2000 st0 (generateAccessToken cfg0 0 payload1) "rt" =
      (Except.error (internalError "error parsing access token"
          (some "token has invalid claims: token is expired")), st0) ∧
    (authLogout cfg0 1000 st0 (TokenStr.malformed "not-a-jwt") "rt").1 ≠
      Except.ok () := by
  refine ⟨rfl, rfl, by decide⟩

/-- Claim C3 as amended: when the presented access token is malformed or
expired, Logout — having already deleted the refresh-token entry — returns the
token-verification failure (classified Internal by ParseAccessToken) as the
error of the whole logout; it never reaches the denylisting step, but it does
not return success. -/
theorem c3_logout_returns_parse_error (cfg : JwtConfig) (now : Int)
    (st : RedisState) (raw rt : String) (p : TokenPayload) (iat e : Int)
    (hd : st.down = false) (hexp : e ≤ now) :
    authLogout cfg now st (TokenStr.malformed raw) rt =
      (Except.error (internalError "error parsing access token" (some "token is malformed")),
        redisDel st ("refresh:" ++ rt)) ∧
    authLogout cfg now st (TokenStr.wellFormed ⟨p, iat, some e⟩ cfg.secret) rt =
      (Except.error (internalError "error parsing access token"
          (some "token has invalid claims: token is expired")),
        redisDel st ("refresh:" ++ rt)) := by
  constructor
  · unfold authLogout deleteRefreshToken parseAccessToken
    simp [hd]
  · unfold authLogout deleteRefreshToken parseAccessToken
    have hne : ¬ now < e := by omega
    simp [hd, hne]

/-- Witness for c3_logout_returns_parse_error at cfg0, now 1000, st0, token
expiry 500. -/
theorem c3_witness :
    st0.down = false ∧ (500 : Int) ≤ 1000 ∧
    (authLogout cfg0 1000 st0 (TokenStr.malformed "zz") "rt" =
        (Except.error (internalError "error parsing access token" (some "token is malformed")),
          redisDel st0 ("refresh:" ++ "rt")) ∧
      authLogout cfg0 1000 st0 (TokenStr.wellFormed ⟨payload1, 3, some 500⟩ cfg0.secret) "rt" =
        (Except.error (internalError "error parsing access token"
            (some "token has invalid claims: token is expired")),
          redisDel st0 ("refresh:" ++ "rt"))) :=
  ⟨rfl, by decide,
    c3_logout_returns_parse_error cfg0 1000 st0 "zz" "rt" payload1 3 500 rfl (by decide)⟩

/-- Claim C4, counterexample: ParseAccessToken classifies a malformed token, an
expired token, and a token signed with the wrong key all as Internal — not as
Unauthorized — refuting "the returned error is classified Unauthorized". -/
theorem c4_counterexample :
    parseAccessToken cfg0 0 (TokenStr.malformed "not-a-jwt") =
      Except.error ⟨ErrorType.internal, "error parsing access token", some "token is malformed"⟩ ∧
    parseAccessToken cfg0 2000 (generateAccessToken cfg0 0 payload1) =
      Except.error ⟨ErrorType.internal, "error parsing access token",
        some "token has invalid claims: token is expired"⟩ ∧
    parseAccessToken cfg0 0 (TokenStr.wellFormed ⟨payload1, 0, some 900⟩ "wrongkey") =
      Except.error ⟨ErrorType.internal, "error parsing access token",
        some "token signature is invalid"⟩ ∧
    ErrorType.internal ≠ ErrorType.unauthorized := by
  refine ⟨rfl, rfl, rfl, by decide⟩

/-- Claim C4 as amended: EVERY failure of ParseAccessToken — malformed token,
expired token, invalid signature — is classified Internal with message
"error parsing access token" (the source wraps the jwt library error with
errs.InternalError; its Unauthorized branch for an error-free invalid token is
unreachable).  Unauthorized classification for bad tokens happens one level up,
in authService.ParseToken. -/
theorem c4_parse_failures_internal (cfg : JwtConfig) (now : Int) (t : TokenStr)
    (e : GoError) (h : parseAccessToken cfg now t = Except.error e) :
    e.type = ErrorType.internal ∧ e.message = "error parsing access token" := by
  cases t with
  | malformed raw =>
      unfold parseAccessToken at h
      simp only [Except.error.injEq] at h
      rw [← h]
      exact ⟨rfl, rfl⟩
  | wellFormed c k =>
      unfold parseAccessToken at h
      dsimp only at h
      by_cases hk : k = cfg.secret
      · rw [if_pos hk] at h
        cases hexp : c.exp with
        | none => rw [hexp] at h; simp at h
        | some ee =>
            rw [hexp] at h
            dsimp only at h
            by_cases hlt : now < ee
            · rw [if_pos hlt] at h; simp at h
            · rw [if_neg hlt] at h
              simp only [Except.error.injEq] at h
              rw [← h]
              exact ⟨rfl, rfl⟩
      · rw [if_neg hk] at h
        simp only [Except.error.injEq] at h
        rw [← h]
        exact ⟨rfl, rfl⟩

/-- Witness for c4_parse_failures_internal at a concrete malformed token. -/
theorem c4_witness :
    parseAccessToken cfg0 0 (TokenStr.malformed "zz") =
      Except.error (internalError "error parsing access token" (some "token is malformed")) ∧
    ((internalError "error parsing access token" (some "token is malformed")).type =
        ErrorType.internal ∧
      (internalError "error parsing access token" (some "token is malformed")).message =
        "error parsing access token") :=
  ⟨rfl, c4_parse_failures_internal cfg0 0 (TokenStr.malformed "zz")
    (internalError "error parsing access token" (some "token is malformed")) rfl⟩

/-- Claim C5 (code bug): starting from a store whose entry at h0 holds a
decodable session payload, refresh(h0) succeeds and a second refresh(h0) fails
NotFound with no pair (single-use holds, delete-before-reissue holds — the
fourth and fifth conjuncts show that even when reissuance fails the old entry
is already gone), BUT refresh of the freshly issued token r2 = SHA256Hex r2sec
does NOT succeed: the rotated entry was persisted in the undecodable
bare-user-id format, so the third conjunct shows refresh(r2) failing with the
Internal unmarshal error, against the claim that refresh(r2) still
succeeds. -/
theorem c5_rotation_and_rotated_token_unusable :
    (authRefresh cfg0 10 (some "r2sec") stGood "h0").1 =
      Except.ok ⟨generateAccessToken cfg0 10 payload1, SHA256Hex "r2sec"⟩ ∧
    (authRefresh cfg0 11 (some "r3") (authRefresh cfg0 10 (some "r2sec") stGood "h0").2 "h0").1 =
      Except.error (notFoundError "refresh token" (some "redis: nil")) ∧
    (authRefresh cfg0 11 (some "r3") (authRefresh cfg0 10 (some "r2sec") stGood "h0").2
        (SHA256Hex "r2sec")).1 =
      Except.error (internalError "error unmarshaling token payload"
        (some "json: cannot unmarshal value into TokenPayload")) ∧
    (authRefresh cfg0 12 none stGood "h0").2 = ⟨[], false⟩ ∧
    (authRefresh cfg0 12 none stGood "h0").1 =
      Except.error (internalError "error generating refresh token"
        (some "error generating refresh token")) := by
  refine ⟨by decide, by decide, by decide, by decide, by decide⟩

/-- Claim C6 (confirmed): logging out a live access token issued at iat and
presented at now (iat < now < expiry) writes exactly one denylist entry whose
TTL is the remaining lifetime expiry − now — positive, and strictly less than
the full original access TTL; and for any presented token whose verification
does not yield a future expiry, no denylist entry is written at all (the
resulting store is exactly the one after the refresh-entry deletion). -/
theorem c6_denylist_ttl_remaining (cfg : JwtConfig) (st : RedisState)
    (now iat : Int) (p : TokenPayload) (rt : String)
    (hd : st.down = false) (hlate : iat < now) :
    (now < iat + cfg.accessTTL →
      authLogout cfg now st (generateAccessToken cfg iat p) rt =
        (Except.ok (),
          redisSet (redisDel st ("refresh:" ++ rt))
            ("blacklist:" ++ SHA256Hex (serializeTokenStr (generateAccessToken cfg iat p)))
            "token" (iat + cfg.accessTTL - now)) ∧
      0 < iat + cfg.accessTTL - now ∧ iat + cfg.accessTTL - now < cfg.accessTTL) ∧
    (∀ a pl e2, parseAccessToken cfg now a = Except.ok (pl, e2) → e2 - now ≤ 0 →
      authLogout cfg now st a rt = (Except.ok (), redisDel st ("refresh:" ++ rt))) := by
  constructor
  · intro hnow
    refine ⟨?_, by omega, by omega⟩
    unfold authLogout deleteRefreshToken parseAccessToken blacklistAccessToken generateAccessToken
    simp [hd, hnow, redisDel]
  · intro a pl e2 hparse hrem
    unfold authLogout deleteRefreshToken
    simp [hd, hparse]
    intro hc
    omega

/-- Witness for c6_denylist_ttl_remaining: issue at 1000, logout at 1500 with
cfg0's 900-second access TTL. -/
theorem c6_witness :
    st0.down = false ∧ (1000 : Int) < 1500 ∧
    (((1500 : Int) < 1000 + cfg0.accessTTL →
      authLogout cfg0 1500 st0 (generateAccessToken cfg0 1000 payload1) "rt" =
        (Except.ok (),
          redisSet (redisDel st0 ("refresh:" ++ "rt"))
            ("blacklist:" ++ SHA256Hex (serializeTokenStr (generateAccessToken cfg0 1000 payload1)))
            "token" (1000 + cfg0.accessTTL - 1500)) ∧
      0 < 1000 + cfg0.accessTTL - 1500 ∧ 1000 + cfg0.accessTTL - 1500 < cfg0.accessTTL) ∧
    (∀ a pl e2, parseAccessToken cfg0 1500 a = Except.ok (pl, e2) → e2 - 1500 ≤ 0 →
      authLogout cfg0 1500 st0 a "rt" = (Except.ok (), redisDel st0 ("refresh:" ++ "rt")))) :=
  ⟨rfl, by decide, c6_denylist_ttl_remaining cfg0 st0 1500 1000 payload1 "rt" rfl (by decide)⟩

/-- Claim C7, counterexample: with the session store down, the denylist check
inside ParseToken surfaces as Unauthorized "invalid token" (not Internal); with
the user directory down, Login surfaces Unauthorized "invalid credentials" (not
Internal) — both lower-level Internal errors are remapped, refuting the claimed
classification-preservation. -/
theorem c7_counterexample :
    authParseToken cfg0 0 ⟨[], true⟩ (TokenStr.malformed "x") =
      Except.error ⟨ErrorType.unauthorized, "invalid token", some "error validating token"⟩ ∧
    (authLogin cfg0 ⟨[user1], true⟩ 0 (some "r") st0 "a@x.com" "pw123").1 =
      Except.error ⟨ErrorType.unauthorized, "invalid credentials",
        some "error getting user by email"⟩ ∧
    ErrorType.unauthorized ≠ ErrorType.internal := by
  refine ⟨rfl, rfl, by decide⟩

/-- Claim C7 as amended: the Session Manager remaps lower-level errors to
Unauthorized at BOTH the Login credential lookup (every failure, not-found and
Internal alike, becomes Unauthorized "invalid credentials") and the ParseToken
denylist check (a store failure becomes Unauthorized "invalid token"); Refresh,
by contrast, propagates the store-fetch error with its classification
intact. -/
theorem c7_error_remapping (cfg : JwtConfig) (now : Int) (stDn : RedisState)
    (dirDn : UserDirectory) (rand : Option String) (st : RedisState)
    (t : TokenStr) (email pw : String)
    (hs : stDn.down = true) (hu : dirDn.down = true) :
    authParseToken cfg now stDn t =
      Except.error (unauthorizedError "invalid token" (some "error validating token")) ∧
    (authLogin cfg dirDn now rand st email pw).1 =
      Except.error (unauthorizedError "invalid credentials"
        (some "error getting user by email")) ∧
    (∀ (st2 : RedisState) (r : String) (e : GoError),
      fetchUserFromRefreshToken st2 r = Except.error e →
      (authRefresh cfg now rand st2 r).1 = Except.error e) := by
  refine ⟨?_, ?_, ?_⟩
  · unfold authParseToken isAccessTokenBlacklisted
    simp [hs, internalError, unauthorizedError]
  · unfold authLogin getUserByEmail
    simp [hu, internalError, unauthorizedError]
  · intro st2 r e he
    unfold authRefresh
    simp [he]

/-- Witness for c7_error_remapping at a down store and down directory. -/
theorem c7_witness :
    (⟨[], true⟩ : RedisState).down = true ∧
    (⟨[user1], true⟩ : UserDirectory).down = true ∧
    (authParseToken cfg0 0 ⟨[], true⟩ (TokenStr.malformed "x") =
        Except.error (unauthorizedError "invalid token" (some "error validating token")) ∧
      (authLogin cfg0 ⟨[user1], true⟩ 0 (some "r") st0 "a@x.com" "pw123").1 =
        Except.error (unauthorizedError "invalid credentials"
          (some "error getting user by email")) ∧
      (∀ (st2 : RedisState) (r : String) (e : GoError),
        fetchUserFromRefreshToken st2 r = Except.error e →
        (authRefresh cfg0 0 (some "r") st2 r).1 = Except.error e)) :=
  ⟨rfl, rfl,
    c7_error_remapping cfg0 0 ⟨[], true⟩ ⟨[user1], true⟩ (some "r") st0
      (TokenStr.malformed "x") "a@x.com" "pw123" rfl rfl⟩

/-- Claim C8 (confirmed): a Login with an email for which no user exists and a
Login with an existing email but a wrong password both fail with errors of
identical observable shape — classification Unauthorized and message
"invalid credentials" (the wrapped causes differ but carry the json tag "-" and
are not serialized to the caller). -/
theorem c8_login_failures_indistinguishable (cfg : JwtConfig)
    (dir : UserDirectory) (now : Int) (rand : Option String) (st : RedisState)
    (email1 email2 pw1 pw2 : String) (u : User)
    (hd : dir.down = false)
    (h1 : dir.users.find? (fun v => v.email = email1) = none)
    (h2 : dir.users.find? (fun v => v.email = email2) = some u)
    (h3 : bcryptMatches u.password pw2 = false) :
    (authLogin cfg dir now rand st email1 pw1).1 =
      Except.error (unauthorizedError "invalid credentials" (some "user not found")) ∧
    (authLogin cfg dir now rand st email2 pw2).1 =
      Except.error (unauthorizedError "invalid credentials"
        (some "crypto/bcrypt: hashedPassword is not the hash of the given password")) ∧
    (∀ e1 e2 : GoError,
      (authLogin cfg dir now rand st email1 pw1).1 = Except.error e1 →
      (authLogin cfg dir now rand st email2 pw2).1 = Except.error e2 →
      e1.type = ErrorType.unauthorized ∧ e1.message = "invalid credentials" ∧
      e2.type = e1.type ∧ e2.message = e1.message) := by
  have ha : (authLogin cfg dir now rand st email1 pw1).1 =
      Except.error (unauthorizedError "invalid credentials" (some "user not found")) := by
    unfold authLogin getUserByEmail
    simp [hd, h1, notFoundError, unauthorizedError]
  have hb : (authLogin cfg dir now rand st email2 pw2).1 =
      Except.error (unauthorizedError "invalid credentials"
        (some "crypto/bcrypt: hashedPassword is not the hash of the given password")) := by
    unfold authLogin getUserByEmail
    simp [hd, h2, h3]
  refine ⟨ha, hb, ?_⟩
  intro e1 e2 he1 he2
  rw [ha] at he1
  rw [hb] at he2
  simp only [Except.error.injEq] at he1 he2
  rw [← he1, ← he2]
  exact ⟨rfl, rfl, rfl, rfl⟩

/-- Witness for c8_login_failures_indistinguishable: unknown email nobody@x.com
versus user1's email with a wrong password. -/
theorem c8_witness :
    dir0.down = false ∧
    dir0.users.find? (fun v => v.email = "nobody@x.com") = none ∧
    dir0.users.find? (fun v => v.email = "a@x.com") = some user1 ∧
    bcryptMatches user1.password "wrong" = false ∧
    ((authLogin cfg0 dir0 0 (some "r") st0 "nobody@x.com" "pw").1 =
        Except.error (unauthorizedError "invalid credentials" (some "user not found")) ∧
      (authLogin cfg0 dir0 0 (some "r") st0 "a@x.com" "wrong").1 =
        Except.error (unauthorizedError "invalid credentials"
          (some "crypto/bcrypt: hashedPassword is not the hash of the given password")) ∧
      (∀ e1 e2 : GoError,
        (authLogin cfg0 dir0 0 (some "r") st0 "nobody@x.com" "pw").1 = Except.error e1 →
        (authLogin cfg0 dir0 0 (some "r") st0 "a@x.com" "wrong").1 = Except.error e2 →
        e1.type = ErrorType.unauthorized ∧ e1.message = "invalid credentials" ∧
        e2.type = e1.type ∧ e2.message = e1.message)) :=
  ⟨rfl, by decide, by decide, by decide,
    c8_login_failures_indistinguishable cfg0 dir0 0 (some "r") st0
      "nobody@x.com" "a@x.com" "pw" "wrong" user1 rfl (by decide) (by decide) (by decide)⟩

/-- Claim C9 (confirmed): round-trip — for every payload P, issue time t0, a
positive configured access TTL and any verification time before t0 + TTL,
parsing the token produced by GenerateAccessToken under the same secret
succeeds and returns P unchanged together with the absolute expiry instant
t0 + TTL. -/
theorem c9_access_token_roundtrip (cfg : JwtConfig) (p : TokenPayload)
    (t0 now : Int) (h1 : 0 < cfg.accessTTL) (h2 : now < t0 + cfg.accessTTL) :
    parseAccessToken cfg now (generateAccessToken cfg t0 p) =
      Except.ok (p, t0 + cfg.accessTTL) := by
  unfold generateAccessToken parseAccessToken
  simp [h2]

/-- Witness for c9_access_token_roundtrip: issue at 300, parse at 1199 under
cfg0's 900-second TTL. -/
theorem c9_witness :
    (0 : Int) < cfg0.accessTTL ∧ (1199 : Int) < 300 + cfg0.accessTTL ∧
    parseAccessToken cfg0 1199 (generateAccessToken cfg0 300 payload1) =
      Except.ok (payload1, 300 + cfg0.accessTTL) :=
  ⟨by decide, by decide,
    c9_access_token_roundtrip cfg0 payload1 300 1199 (by decide) (by decide)⟩

/-- Claim C10 (confirmed): a token whose signature verifies under the
configured secret but which carries no expires-at claim parses successfully
with the Go zero time as expiry; ParseToken therefore accepts it (when not
denylisted) at ANY present time; and Logout never denylists it — the remaining
lifetime zero-time − now is negative — succeeding with no blacklist write. -/
theorem c10_tokens_without_expiry (cfg : JwtConfig) (now : Int)
    (st : RedisState) (p : TokenPayload) (iat : Int) (rt : String) (t : TokenStr)
    (ht : t = TokenStr.wellFormed ⟨p, iat, none⟩ cfg.secret)
    (hd : st.down = false) (hnow : goZeroTime < now)
    (hnb : redisLookup st ("blacklist:" ++ SHA256Hex (serializeTokenStr t)) = none) :
    parseAccessToken cfg now t = Except.ok (p, goZeroTime) ∧
    authParseToken cfg now st t = Except.ok p ∧
    authLogout cfg now st t rt = (Except.ok (), redisDel st ("refresh:" ++ rt)) := by
  subst ht
  refine ⟨?_, ?_, ?_⟩
  · unfold parseAccessToken
    simp
  · unfold authParseToken isAccessTokenBlacklisted parseAccessToken
    simp [hd, hnb]
  · unfold authLogout deleteRefreshToken parseAccessToken
    simp [hd]
    omega

/-- Witness for c10_tokens_without_expiry: an exp-less token signed with cfg0's
secret, presented at Unix time 0 against the empty store. -/
theorem c10_witness :
    TokenStr.wellFormed ⟨payload1, 5, none⟩ "topsecret" =
      TokenStr.wellFormed ⟨payload1, 5, none⟩ cfg0.secret ∧
    st0.down = false ∧ goZeroTime < (0 : Int) ∧
    redisLookup st0 ("blacklist:" ++
      SHA256Hex (serializeTokenStr (TokenStr.wellFormed ⟨payload1, 5, none⟩ "topsecret"))) = none ∧
    (parseAccessToken cfg0 0 (TokenStr.wellFormed ⟨payload1, 5, none⟩ "topsecret") =
        Except.ok (payload1, goZeroTime) ∧
      authParseToken cfg0 0 st0 (TokenStr.wellFormed ⟨payload1, 5, none⟩ "topsecret") =
        Except.ok payload1 ∧
      authLogout cfg0 0 st0 (TokenStr.wellFormed ⟨payload1, 5, none⟩ "topsecret") "rt" =
        (Except.ok (), redisDel st0 ("refresh:" ++ "rt"))) :=
  ⟨rfl, rfl, by decide, rfl,
    c10_tokens_without_expiry cfg0 0 st0 payload1 5 "rt"
      (TokenStr.wellFormed ⟨payload1, 5, none⟩ "topsecret") rfl rfl (by decide) rfl⟩

end Certify
